import Mathlib

/-!
Verification of the MetricAggregator pipeline of TamburPlots.

The repository consists of three analysis scripts. The repeatable logic is
the CSV classification-and-aggregation pipeline of
src/video_loss/video_loss.py (function generate_lpips_plot) together with
the tolerance-band classifier classify_loss_rate of
src/lpips_token/lpips_token.py. This file gives a shallow embedding of
that pipeline and settles the specification claims against it.

Modelling conventions:
- Numeric fields are modelled over the rationals. The Python scripts
  compare decimal literals such as 0.15 and 0.25; those comparisons are
  modelled exactly by rational arithmetic.
- Python float(s) is modelled by parseFloat, restricted to plain decimal
  literals (optional sign, digits, optional fractional part). Scientific
  notation, infinities and surrounding whitespace on the raw metric field
  are outside the inputs considered by the claims.
- The CSV layer (the csv module) is modelled as already done: the input
  of the pipeline is the list of parsed rows, each a list of string
  fields, the first row being the header when present. An empty input
  string yields an empty row list.
- Diagnostics printed by the scripts are modelled as data: the parse
  warnings are returned as a list of the offending rows, the per-cell
  no-data informational note as a Boolean marker on the cell, and the
  fallback-column warning as a Boolean flag on the result.
-/

namespace TamburPlots

/-- The two packet-loss conditions of video_loss.py: the keys written
as a zero-loss key and a twenty-percent-loss key in parsed_data. -/
inductive Cond
  | zeroLoss
  | twentyLoss
deriving DecidableEq, Repr

/-- src/lpips_token/lpips_token.py, classify_loss_rate (lines 9 to 14):
returns the label for absolute value below 0.01, else the twenty percent
label when the distance to 0.20 is at most 0.05, else none. -/
def classify_loss_rate (x : ℚ) : Option String :=
  if |x| < 1/100 then some "0%"
  else if |x - 20/100| ≤ 5/100 then some "20%"
  else none

/-- src/video_loss/video_loss.py, the categorisation at lines 72 to 75:
a row with loss equal to 0.0 goes to the zero-loss bucket, a row with
loss between 0.15 and 0.25 inclusive to the twenty-loss bucket, any
other loss is silently dropped. -/
def classifyVL (x : ℚ) : Option Cond :=
  if x = 0 then some Cond.zeroLoss
  else if mkRat 15 100 ≤ x ∧ x ≤ mkRat 25 100 then some Cond.twentyLoss
  else none

/-- Whitespace test for the model of the Python str.strip method. -/
def isSpaceChar (c : Char) : Bool :=
  c = ' ' || c = '\t' || c = '\n' || c = '\r'

/-- Model of the Python expression s.strip().replace of a double quote by
nothing, used on the video and loss fields in video_loss.py. -/
def cleanField (s : String) : String :=
  String.mk ((((s.data.dropWhile isSpaceChar).reverse.dropWhile
    isSpaceChar).reverse).filter (fun c => c ≠ '"'))

/-- Numeric value of a digit list, most significant first. -/
def digitsVal (l : List Char) : Nat :=
  l.foldl (fun n c => 10 * n + (c.toNat - 48)) 0

/-- Decimal parse of an unsigned character list: digits, optionally a
point and further digits; at least one digit overall. -/
def parseUnsigned (cs : List Char) : Option ℚ :=
  let intPart := cs.takeWhile Char.isDigit
  let rest := cs.dropWhile Char.isDigit
  match rest with
  | [] =>
      if intPart = [] then none
      else some (mkRat (digitsVal intPart) 1)
  | '.' :: fracRest =>
      let fracPart := fracRest.takeWhile Char.isDigit
      let rest2 := fracRest.dropWhile Char.isDigit
      if rest2 = [] ∧ (intPart ≠ [] ∨ fracPart ≠ []) then
        some (mkRat (digitsVal intPart * 10 ^ fracPart.length + digitsVal fracPart)
          (10 ^ fracPart.length))
      else none
  | _ => none

/-- Model of the Python float conversion on the plain decimal literals
that occur in the data: optional sign followed by an unsigned decimal.
Any other string raises ValueError in Python and parses to none here. -/
def parseFloat (s : String) : Option ℚ :=
  match s.data with
  | '-' :: rest => (parseUnsigned rest).map (fun q => -q)
  | '+' :: rest => parseUnsigned rest
  | cs => parseUnsigned cs

/-- The three column indices used by generate_lpips_plot. -/
structure ColIdx where
  lpips : Nat
  loss : Nat
  video : Nat
deriving DecidableEq, Repr

/-- src/video_loss/video_loss.py lines 41 to 52: look the three required
names up in the header; if any one of them is absent the index call
raises ValueError and the except branch sets all three indices to the
hardcoded fallback positions 6, 8 and 13 and prints a warning. The
Boolean records whether the fallback warning was printed. -/
def resolveCols (header : List String) : ColIdx × Bool :=
  if "lpips" ∈ header ∧ "avg_packet_loss" ∈ header ∧ "video" ∈ header then
    (⟨header.indexOf "lpips", header.indexOf "avg_packet_loss",
      header.indexOf "video"⟩, false)
  else
    (⟨6, 8, 13⟩, true)

/-- Outcome of the per-row body of the loop at lines 56 to 82 of
video_loss.py: the row contributes a metric value to a bucket, or it is
silently skipped (empty row, group not of interest, loss in no band), or
an exception is caught and a warning printed. -/
inductive RowOutcome
  | contribute (g : String) (c : Cond) (v : ℚ)
  | skipped
  | warn
deriving DecidableEq, Repr

/-- The per-row body of the processing loop, following the order of the
Python source: the empty-row test, then the video field access (an
IndexError prints a warning), the strip-and-unquote, the membership test
in the groups of interest, the metric float conversion, the loss field
access and conversion (IndexError or ValueError print a warning), and
finally the band categorisation. -/
def processRow (cols : ColIdx) (targets : List String) (row : List String) :
    RowOutcome :=
  if row = [] then RowOutcome.skipped
  else
    match row.get? cols.video with
    | none => RowOutcome.warn
    | some rawVideo =>
      if cleanField rawVideo ∈ targets then
        match row.get? cols.lpips with
        | none => RowOutcome.warn
        | some lpipsStr =>
          match parseFloat lpipsStr with
          | none => RowOutcome.warn
          | some lpipsVal =>
            match row.get? cols.loss with
            | none => RowOutcome.warn
            | some lossStr =>
              match parseFloat (cleanField lossStr) with
              | none => RowOutcome.warn
              | some lossVal =>
                match classifyVL lossVal with
                | some c => RowOutcome.contribute (cleanField rawVideo) c lpipsVal
                | none => RowOutcome.skipped
      else RowOutcome.skipped

/-- The parsed_data accumulator of video_loss.py: for each video name and
condition, the list of metric values appended so far, in row order. -/
def Buckets : Type := String → Cond → List ℚ

/-- The initial defaultdict: every bucket empty. -/
def emptyBuckets : Buckets := fun _ _ => []

/-- Model of the list append on the bucket of one video and condition. -/
def addValue (b : Buckets) (g : String) (c : Cond) (v : ℚ) : Buckets :=
  fun g2 c2 => if g2 = g ∧ c2 = c then b g c ++ [v] else b g2 c2

/-- One step of the processing loop on the accumulator, consisting of the
buckets and the list of rows a warning was printed for. -/
def stepRow (cols : ColIdx) (targets : List String)
    (acc : Buckets × List (List String)) (row : List String) :
    Buckets × List (List String) :=
  match processRow cols targets row with
  | RowOutcome.contribute g c v => (addValue acc.1 g c v, acc.2)
  | RowOutcome.skipped => acc
  | RowOutcome.warn => (acc.1, acc.2 ++ [row])

/-- The processing loop from an arbitrary accumulator. -/
def processRowsFrom (cols : ColIdx) (targets : List String)
    (acc : Buckets × List (List String)) (rows : List (List String)) :
    Buckets × List (List String) :=
  rows.foldl (stepRow cols targets) acc

/-- The processing loop of lines 56 to 82 over all data rows, from the
empty accumulator. -/
def processRows (cols : ColIdx) (targets : List String)
    (rows : List (List String)) : Buckets × List (List String) :=
  processRowsFrom cols targets (emptyBuckets, []) rows

/-- Rational addition written with explicit numerators and denominators,
the executable form used by the summation below; proven equal to the
addition of the rationals. -/
def qAdd (a b : ℚ) : ℚ :=
  mkRat (a.num * (b.den : ℤ) + b.num * (a.den : ℤ)) (a.den * b.den)

/-- Executable sum of a list of rationals. -/
def qSum (l : List ℚ) : ℚ := l.foldr qAdd 0

/-- Arithmetic mean of a list of rationals, the model of np.mean on the
nonempty value lists of the script; proven equal to the sum divided by
the length. -/
def mean (l : List ℚ) : ℚ := mkRat (qSum l).num ((qSum l).den * l.length)

/-- Lines 100 to 112 of video_loss.py for one video: for each of the two
conditions, the value appended to the plot arrays together with a Boolean
recording whether the no-data informational note was printed. A nonempty
bucket yields its mean and no note; an empty bucket yields the number 0
and the note. -/
def videoCell (b : Buckets) (v : String) : (ℚ × Bool) × (ℚ × Bool) :=
  ((if b v Cond.zeroLoss = [] then ((0 : ℚ), true)
    else (mean (b v Cond.zeroLoss), false)),
   (if b v Cond.twentyLoss = [] then ((0 : ℚ), true)
    else (mean (b v Cond.twentyLoss), false)))

/-- The plot-preparation loop at lines 93 to 112: one cell pair per
target video, in the order of the target list. -/
def plotStage (b : Buckets) (targets : List String) :
    List (String × ((ℚ × Bool) × (ℚ × Bool))) :=
  targets.map (fun v => (v, videoCell b v))

/-- The two early-return error paths of generate_lpips_plot: the empty
input at lines 34 to 38, and the all-buckets-empty check at lines 114
to 116. -/
inductive PipelineError
  | emptyInput
  | noData
deriving DecidableEq, Repr

/-- The observable result of a successful run: the per-video cells handed
to the chart renderer, the rows a parse warning was printed for, and
whether the fallback-column warning was printed. -/
structure PlotResult where
  cells : List (String × ((ℚ × Bool) × (ℚ × Bool)))
  warnings : List (List String)
  usedFallback : Bool
deriving DecidableEq, Repr

/-- The pipeline after the header has been consumed and the column
indices resolved: process the data rows, prepare the plot cells, and
reproduce the final any-check of lines 114 to 116 under which the script
returns without plotting. -/
def pipelineAfterHeader (cols : ColIdx) (fallback : Bool)
    (targets : List String) (dataRows : List (List String)) :
    Except PipelineError PlotResult :=
  let pw := processRows cols targets dataRows
  let cells := plotStage pw.1 targets
  if cells.all (fun e => e.2.1.1 == 0) && cells.all (fun e => e.2.2.1 == 0) then
    Except.error PipelineError.noData
  else
    Except.ok ⟨cells, pw.2, fallback⟩

/-- src/video_loss/video_loss.py, generate_lpips_plot, on an input given
as the list of CSV rows: an empty input (no header row at all) is the
empty-input error of lines 34 to 38; otherwise the first row is the
header, the column indices are resolved with the hardcoded fallback, and
the data rows are processed and aggregated. The target list is the
groups-of-interest parameter; the script instantiates it with
target_video_names. -/
def generate_lpips_plot (targets : List String)
    (input : List (List String)) : Except PipelineError PlotResult :=
  match input with
  | [] => Except.error PipelineError.emptyInput
  | header :: dataRows =>
      pipelineAfterHeader (resolveCols header).1 (resolveCols header).2
        targets dataRows

/-- The hardcoded target list of video_loss.py, lines 23 to 27. -/
def target_video_names : List String :=
  ["video-0.mp4", "video-1.mp4", "video-2.mp4",
   "video-4.mp4", "video-5.mp4", "video-6.mp4",
   "video-7.mp4", "video-9.mp4"]

/-- Two consecutive runs of the pipeline on the same input. -/
def runTwice (targets : List String) (input : List (List String)) :
    Except PipelineError PlotResult × Except PipelineError PlotResult :=
  (generate_lpips_plot targets input, generate_lpips_plot targets input)

/-- The metric value a row contributes to the bucket of one video and
condition, if any: the extraction function the bucket invariant is
stated with. -/
def rowContrib (cols : ColIdx) (targets : List String) (g : String)
    (c : Cond) (row : List String) : Option ℚ :=
  match processRow cols targets row with
  | RowOutcome.contribute g2 c2 v => if g2 = g ∧ c2 = c then some v else none
  | _ => none

/-- The executable addition agrees with rational addition. -/
theorem qAdd_eq (a b : ℚ) : qAdd a b = a + b := by
  have ha : ((a.den : ℤ)) ≠ 0 := Int.natCast_ne_zero.mpr a.den_nz
  have hb : ((b.den : ℤ)) ≠ 0 := Int.natCast_ne_zero.mpr b.den_nz
  rw [qAdd, Rat.mkRat_eq_divInt, Int.natCast_mul]
  conv_rhs => rw [← Rat.divInt_self a, ← Rat.divInt_self b]
  rw [Rat.divInt_add_divInt _ _ ha hb]

/-- The executable sum agrees with the sum of the list. -/
theorem qSum_eq (l : List ℚ) : qSum l = l.sum := by
  induction l with
  | nil => rfl
  | cons x xs ih =>
      rw [qSum, List.foldr_cons,
          show List.foldr qAdd 0 xs = qSum xs from rfl, ih, qAdd_eq,
          List.sum_cons]

/-- The executable mean is the arithmetic mean: the sum of the list
divided by its length. -/
theorem mean_eq (l : List ℚ) : mean l = l.sum / (l.length : ℚ) := by
  rw [mean, Rat.mkRat_eq_divInt, Rat.divInt_eq_div]
  push_cast
  rw [← div_div, Rat.num_div_den, qSum_eq]

/-- Pointwise description of addValue: only the addressed bucket grows. -/
theorem addValue_apply (b : Buckets) (gk : String) (ck : Cond) (v : ℚ)
    (g : String) (c : Cond) :
    addValue b gk ck v g c = if gk = g ∧ ck = c then b g c ++ [v] else b g c := by
  by_cases h : gk = g ∧ ck = c
  · obtain ⟨h1, h2⟩ := h
    subst h1; subst h2
    simp [addValue]
  · rw [if_neg h]
    have h2 : ¬(g = gk ∧ c = ck) := fun hc => h ⟨hc.1.symm, hc.2.symm⟩
    simp [addValue, h2]

/-- The bucket of one video and condition after the loop, from any
starting accumulator: the starting bucket followed by the contributions
of the processed rows, in row order. -/
theorem processRowsFrom_fst (cols : ColIdx) (targets : List String)
    (rows : List (List String)) :
    ∀ (b : Buckets) (w : List (List String)) (g : String) (c : Cond),
      (processRowsFrom cols targets (b, w) rows).1 g c
        = b g c ++ rows.filterMap (rowContrib cols targets g c) := by
  induction rows with
  | nil => intro b w g c; simp [processRowsFrom]
  | cons row rest ih =>
      intro b w g c
      rw [processRowsFrom, List.foldl_cons, List.filterMap_cons]
      cases hpr : processRow cols targets row with
      | contribute gk ck v =>
          rw [show stepRow cols targets (b, w) row = (addValue b gk ck v, w) by
                simp [stepRow, hpr]]
          rw [show rest.foldl (stepRow cols targets) (addValue b gk ck v, w)
                = processRowsFrom cols targets (addValue b gk ck v, w) rest from rfl,
              ih (addValue b gk ck v) w g c, addValue_apply]
          simp only [rowContrib, hpr]
          by_cases h : gk = g ∧ ck = c
          · rw [if_pos h, if_pos h, List.append_assoc]
            rfl
          · rw [if_neg h, if_neg h]
      | skipped =>
          rw [show stepRow cols targets (b, w) row = (b, w) by simp [stepRow, hpr]]
          rw [show rest.foldl (stepRow cols targets) (b, w)
                = processRowsFrom cols targets (b, w) rest from rfl,
              ih b w g c]
          simp only [rowContrib, hpr]
      | warn =>
          rw [show stepRow cols targets (b, w) row = (b, w ++ [row]) by
                simp [stepRow, hpr]]
          rw [show rest.foldl (stepRow cols targets) (b, w ++ [row])
                = processRowsFrom cols targets (b, w ++ [row]) rest from rfl,
              ih b (w ++ [row]) g c]
          simp only [rowContrib, hpr]

/-- The warnings after the loop, from any starting accumulator: the
starting warnings followed by exactly the rows the per-row body prints a
warning for, in row order. -/
theorem processRowsFrom_snd (cols : ColIdx) (targets : List String)
    (rows : List (List String)) :
    ∀ (b : Buckets) (w : List (List String)),
      (processRowsFrom cols targets (b, w) rows).2
        = w ++ rows.filter
            (fun row => processRow cols targets row == RowOutcome.warn) := by
  induction rows with
  | nil => intro b w; simp [processRowsFrom]
  | cons row rest ih =>
      intro b w
      rw [processRowsFrom, List.foldl_cons, List.filter_cons]
      cases hpr : processRow cols targets row with
      | contribute gk ck v =>
          rw [show stepRow cols targets (b, w) row = (addValue b gk ck v, w) by
                simp [stepRow, hpr]]
          rw [show rest.foldl (stepRow cols targets) (addValue b gk ck v, w)
                = processRowsFrom cols targets (addValue b gk ck v, w) rest from rfl,
              ih (addValue b gk ck v) w]
          simp [hpr]
      | skipped =>
          rw [show stepRow cols targets (b, w) row = (b, w) by simp [stepRow, hpr]]
          rw [show rest.foldl (stepRow cols targets) (b, w)
                = processRowsFrom cols targets (b, w) rest from rfl, ih b w]
          simp [hpr]
      | warn =>
          rw [show stepRow cols targets (b, w) row = (b, w ++ [row]) by
                simp [stepRow, hpr]]
          rw [show rest.foldl (stepRow cols targets) (b, w ++ [row])
                = processRowsFrom cols targets (b, w ++ [row]) rest from rfl,
              ih b (w ++ [row])]
          simp [hpr]

/-- The bucket of one video and condition after the full loop equals the
list of contributions extracted from the rows. -/
theorem processRows_fst (cols : ColIdx) (targets : List String)
    (rows : List (List String)) (g : String) (c : Cond) :
    (processRows cols targets rows).1 g c
      = rows.filterMap (rowContrib cols targets g c) := by
  rw [processRows, processRowsFrom_fst]
  simp [emptyBuckets]

/-- The warning list after the full loop is exactly the sublist of rows
the per-row body warns on. -/
theorem processRows_snd (cols : ColIdx) (targets : List String)
    (rows : List (List String)) :
    (processRows cols targets rows).2
      = rows.filter (fun row => processRow cols targets row == RowOutcome.warn) := by
  rw [processRows, processRowsFrom_snd]
  simp

/-- C2: classify_loss_rate returns the zero-percent label exactly when
the absolute value of the loss fraction is below 0.01, returns the
twenty-percent label exactly when the loss fraction lies between 0.15
and 0.25 inclusive, and returns none for every other loss fraction, in
particular for 0.26. -/
theorem classify_loss_rate_bands (x : ℚ) :
    (classify_loss_rate x = some "0%" ↔ |x| < 1/100) ∧
    (classify_loss_rate x = some "20%" ↔ 15/100 ≤ x ∧ x ≤ 25/100) ∧
    (classify_loss_rate x = none ↔
      ¬(|x| < 1/100) ∧ ¬(15/100 ≤ x ∧ x ≤ 25/100)) ∧
    classify_loss_rate ((26 : ℚ)/100) = none := by
  have hiff : |x - 20/100| ≤ 5/100 ↔ 15/100 ≤ x ∧ x ≤ 25/100 := by
    rw [abs_le]
    constructor
    · intro hx; exact ⟨by linarith [hx.1], by linarith [hx.2]⟩
    · intro hx; exact ⟨by linarith [hx.1], by linarith [hx.2]⟩
  have h26 : classify_loss_rate ((26 : ℚ)/100) = none := by
    have ha : ¬(|(26 : ℚ)/100| < 1/100) := by
      rw [abs_lt]; intro hx; linarith [hx.2]
    have hb : ¬(|(26 : ℚ)/100 - 20/100| ≤ 5/100) := by
      rw [abs_le]; intro hx; linarith [hx.2]
    rw [classify_loss_rate, if_neg ha, if_neg hb]
  by_cases h1 : |x| < 1/100
  · have hno : ¬(15/100 ≤ x ∧ x ≤ 25/100) := by
      rw [abs_lt] at h1; intro hx; linarith [hx.1, h1.2]
    rw [classify_loss_rate, if_pos h1]
    refine ⟨iff_of_true rfl h1, ?_, iff_of_false (by simp) (fun hc => hc.1 h1), h26⟩
    constructor
    · intro h; exact absurd (Option.some.inj h) (by decide)
    · intro hb; exact absurd hb hno
  · by_cases h2 : |x - 20/100| ≤ 5/100
    · have hband := hiff.mp h2
      rw [classify_loss_rate, if_neg h1, if_pos h2]
      refine ⟨?_, iff_of_true rfl hband,
        iff_of_false (by simp) (fun hc => hc.2 hband), h26⟩
      constructor
      · intro h; exact absurd (Option.some.inj h) (by decide)
      · intro hx; exact absurd hx h1
    · have hnoband : ¬(15/100 ≤ x ∧ x ≤ 25/100) := fun hb => h2 (hiff.mpr hb)
      rw [classify_loss_rate, if_neg h1, if_neg h2]
      exact ⟨iff_of_false (by simp) h1, iff_of_false (by simp) hnoband,
        iff_of_true rfl ⟨h1, hnoband⟩, h26⟩

/-- C6: a completely empty input, which is the only input without a
header row, makes generate_lpips_plot fail fast with the empty-input
error, before any row processing or aggregation. -/
theorem empty_input_fails_fast (targets : List String) :
    generate_lpips_plot targets [] = Except.error PipelineError.emptyInput := rfl

/-- C8: running the pipeline twice on the same target list and the same
input rows yields identical results; the pipeline is a pure function of
its arguments with no hidden state. -/
theorem pipeline_deterministic (targets : List String)
    (input : List (List String)) :
    (runTwice targets input).1 = (runTwice targets input).2 := rfl

/-- A header missing any one of the three required names resolves to the
hardcoded fallback positions with the warning flag set. -/
theorem resolveCols_of_missing (header : List String)
    (h : "lpips" ∉ header ∨ "avg_packet_loss" ∉ header ∨ "video" ∉ header) :
    resolveCols header = (⟨6, 8, 13⟩, true) := by
  rw [resolveCols, if_neg]
  rintro ⟨h1, h2, h3⟩
  rcases h with h | h | h
  · exact h h1
  · exact h h2
  · exact h h3

/-- C10: the header fallback is all or nothing: if any one of the three
required names is absent from the header, resolveCols yields the
hardcoded positions 6, 8 and 13 for all three columns, with the fallback
warning flag set, regardless of which names were present. -/
theorem fallback_all_or_nothing (header : List String)
    (h : "lpips" ∉ header ∨ "avg_packet_loss" ∉ header ∨ "video" ∉ header) :
    resolveCols header = (⟨6, 8, 13⟩, true) :=
  resolveCols_of_missing header h

/-- Witness for C10: a header that does contain the video and lpips names
but lacks avg_packet_loss still falls back on all three positions. -/
theorem fallback_all_or_nothing_witness :
    ("lpips" ∉ (["video", "lpips"] : List String)
      ∨ "avg_packet_loss" ∉ (["video", "lpips"] : List String)
      ∨ "video" ∉ (["video", "lpips"] : List String)) ∧
    resolveCols ["video", "lpips"] = (⟨6, 8, 13⟩, true) :=
  ⟨Or.inr (Or.inl (by decide)),
   fallback_all_or_nothing ["video", "lpips"] (Or.inr (Or.inl (by decide)))⟩

/-- The column indices resolved from the header of the worked example,
video first, then loss, then the metric. -/
def demoCols : ColIdx := ⟨2, 1, 0⟩

/-- The groups of interest of the ten-row demonstration run. -/
def demoTargets : List String := ["video-0.mp4"]

/-- Ten data rows for the target group, two of them malformed in the
metric field; the other eight are valid and in the zero-loss band. -/
def demoRows : List (List String) :=
  [["video-0.mp4", "0.0", "0.10"],
   ["video-0.mp4", "0.0", "0.11"],
   ["video-0.mp4", "0.0", "abc"],
   ["video-0.mp4", "0.0", "0.12"],
   ["video-0.mp4", "0.0", "0.13"],
   ["video-0.mp4", "0.0", "0.14"],
   ["video-0.mp4", "0.0", "oops"],
   ["video-0.mp4", "0.0", "0.15"],
   ["video-0.mp4", "0.0", "0.16"],
   ["video-0.mp4", "0.0", "0.17"]]

/-- C7: the bucket of every video and condition contains exactly the
metric values extracted from rows whose cleaned group matches the video
and whose classified loss band matches the condition, in row order; and
every cell whose bucket is nonempty carries the arithmetic mean of that
bucket, with no no-data note. -/
theorem aggregate_cell_invariant (cols : ColIdx) (targets : List String)
    (rows : List (List String)) (g : String) (c : Cond) :
    (processRows cols targets rows).1 g c
      = rows.filterMap (rowContrib cols targets g c) ∧
    ((processRows cols targets rows).1 g Cond.zeroLoss ≠ [] →
      (videoCell (processRows cols targets rows).1 g).1
        = (((processRows cols targets rows).1 g Cond.zeroLoss).sum
            / ((((processRows cols targets rows).1 g Cond.zeroLoss).length : ℚ)),
           false)) ∧
    ((processRows cols targets rows).1 g Cond.twentyLoss ≠ [] →
      (videoCell (processRows cols targets rows).1 g).2
        = (((processRows cols targets rows).1 g Cond.twentyLoss).sum
            / ((((processRows cols targets rows).1 g Cond.twentyLoss).length : ℚ)),
           false)) := by
  refine ⟨processRows_fst cols targets rows g c, ?_, ?_⟩
  · intro h
    rw [videoCell]
    dsimp only
    rw [if_neg h, mean_eq]
  · intro h
    rw [videoCell]
    dsimp only
    rw [if_neg h, mean_eq]

/-- Witness for C7: on a one-row input the zero-loss bucket of the
target video is nonempty and its cell is the mean of the bucket. -/
theorem aggregate_cell_invariant_witness :
    (processRows demoCols demoTargets [["video-0.mp4", "0.0", "0.10"]]).1
        "video-0.mp4" Cond.zeroLoss ≠ [] ∧
    (videoCell (processRows demoCols demoTargets
        [["video-0.mp4", "0.0", "0.10"]]).1 "video-0.mp4").1
      = (((processRows demoCols demoTargets
            [["video-0.mp4", "0.0", "0.10"]]).1 "video-0.mp4" Cond.zeroLoss).sum
          / ((((processRows demoCols demoTargets
            [["video-0.mp4", "0.0", "0.10"]]).1 "video-0.mp4"
              Cond.zeroLoss).length : ℚ)),
         false) :=
  ⟨by decide,
   (aggregate_cell_invariant demoCols demoTargets
      [["video-0.mp4", "0.0", "0.10"]] "video-0.mp4" Cond.zeroLoss).2.1
      (by decide)⟩

/-- C5: a row on which the per-row body warns never aborts the run: the
buckets are exactly those of the run without that row, and exactly one
more warning is reported, wherever the row occurs; moreover the concrete
ten-row run with two malformed rows yields exactly eight ingested values
and two warnings. -/
theorem malformed_rows_never_abort (cols : ColIdx) (targets : List String)
    (xs ys : List (List String)) (r : List String)
    (h : processRow cols targets r = RowOutcome.warn) :
    (∀ g c, (processRows cols targets (xs ++ r :: ys)).1 g c
        = (processRows cols targets (xs ++ ys)).1 g c) ∧
    (processRows cols targets (xs ++ r :: ys)).2.length
        = (processRows cols targets (xs ++ ys)).2.length + 1 ∧
    ((processRows demoCols demoTargets demoRows).1
        "video-0.mp4" Cond.zeroLoss).length = 8 ∧
    (processRows demoCols demoTargets demoRows).2.length = 2 := by
  have hcontrib : ∀ g c, rowContrib cols targets g c r = none := by
    intro g c
    rw [rowContrib, h]
  refine ⟨?_, ?_, by decide, by decide⟩
  · intro g c
    rw [processRows_fst, processRows_fst, List.filterMap_append,
        List.filterMap_append, List.filterMap_cons, hcontrib g c]
  · rw [processRows_snd, processRows_snd, List.filter_append,
        List.filter_append, List.filter_cons]
    simp [h, List.length_append]
    omega

/-- Witness for C5: the malformed metric field abc triggers the warning
outcome, and inserting that row into an empty run adds exactly one
warning. -/
theorem malformed_rows_never_abort_witness :
    processRow demoCols demoTargets ["video-0.mp4", "0.0", "abc"]
        = RowOutcome.warn ∧
    (processRows demoCols demoTargets
        ([] ++ ["video-0.mp4", "0.0", "abc"] :: [])).2.length
      = (processRows demoCols demoTargets ([] ++ [])).2.length + 1 :=
  ⟨by decide,
   (malformed_rows_never_abort demoCols demoTargets [] []
      ["video-0.mp4", "0.0", "abc"] (by decide)).2.1⟩

/-- C9: a nonempty row whose cleaned group field is readable and not in
the groups of interest is skipped before its metric and loss fields are
parsed: the outcome is the silent skip, and the run with the row has the
same buckets and the same warning list as the run without it, whatever
the contents of its other fields. -/
theorem non_target_row_silent (cols : ColIdx) (targets : List String)
    (row : List String) (s : String) (xs ys : List (List String))
    (h1 : row ≠ []) (h2 : row.get? cols.video = some s)
    (h3 : cleanField s ∉ targets) :
    processRow cols targets row = RowOutcome.skipped ∧
    (∀ g c, (processRows cols targets (xs ++ row :: ys)).1 g c
        = (processRows cols targets (xs ++ ys)).1 g c) ∧
    (processRows cols targets (xs ++ row :: ys)).2
        = (processRows cols targets (xs ++ ys)).2 := by
  have hskip : processRow cols targets row = RowOutcome.skipped := by
    rw [processRow, if_neg h1]
    simp only [h2]
    rw [if_neg h3]
  have hcontrib : ∀ g c, rowContrib cols targets g c row = none := by
    intro g c
    rw [rowContrib, hskip]
  refine ⟨hskip, ?_, ?_⟩
  · intro g c
    rw [processRows_fst, processRows_fst, List.filterMap_append,
        List.filterMap_append, List.filterMap_cons, hcontrib g c]
  · rw [processRows_snd, processRows_snd, List.filter_append,
        List.filter_append, List.filter_cons]
    simp [hskip]

/-- Witness for C9: a row naming a video outside the groups of interest
with non-numeric metric and loss fields is silently skipped. -/
theorem non_target_row_silent_witness :
    (["video-3.mp4", "zzz", "qqq"] : List String) ≠ [] ∧
    (["video-3.mp4", "zzz", "qqq"] : List String).get? demoCols.video
        = some "video-3.mp4" ∧
    cleanField "video-3.mp4" ∉ demoTargets ∧
    processRow demoCols demoTargets ["video-3.mp4", "zzz", "qqq"]
        = RowOutcome.skipped :=
  ⟨by decide, by decide, by decide,
   (non_target_row_silent demoCols demoTargets ["video-3.mp4", "zzz", "qqq"]
      "video-3.mp4" [] [] (by decide) (by decide) (by decide)).1⟩

/-- Counterexample for C1: a run in which the twenty-loss bucket of the
target video has zero contributing rows; its cell carries the plotted
value 0, the number, not a missing sentinel. The informational note part
of the claim does hold, recorded by the Boolean marker. -/
theorem missing_reported_as_zero_counterexample :
    (processRows demoCols demoTargets [["video-0.mp4", "0.0", "0.10"]]).1
        "video-0.mp4" Cond.twentyLoss = [] ∧
    (videoCell (processRows demoCols demoTargets
        [["video-0.mp4", "0.0", "0.10"]]).1 "video-0.mp4").2
      = ((0 : ℚ), true) :=
  ⟨by decide, by decide⟩

/-- C1 as amended: for every bucket state and every video, a condition
with zero contributing values is reported with the plotted value 0, a
placeholder indistinguishable from a measured zero, together with the
no-data informational note identifying that video and condition. -/
theorem empty_bucket_reports_zero_with_note (b : Buckets) (v : String) :
    (b v Cond.zeroLoss = [] → (videoCell b v).1 = ((0 : ℚ), true)) ∧
    (b v Cond.twentyLoss = [] → (videoCell b v).2 = ((0 : ℚ), true)) := by
  constructor
  · intro h
    rw [videoCell]
    dsimp only
    rw [if_pos h]
  · intro h
    rw [videoCell]
    dsimp only
    rw [if_pos h]

/-- Witness for the amended C1, at the empty bucket state. -/
theorem empty_bucket_reports_zero_with_note_witness :
    emptyBuckets "video-0.mp4" Cond.zeroLoss = ([] : List ℚ) ∧
    (videoCell emptyBuckets "video-0.mp4").1 = ((0 : ℚ), true) :=
  ⟨rfl, (empty_bucket_reports_zero_with_note emptyBuckets "video-0.mp4").1 rfl⟩

/-- The header of the worked example of the specification. -/
def c3Header : List String := ["video", "avg_packet_loss", "lpips"]

/-- The three data rows of the worked example. -/
def c3Rows : List (List String) :=
  [["video-0.mp4", "0.0", "0.10"],
   ["video-0.mp4", "0.20", "0.30"],
   ["video-1.mp4", "0.0", "0.15"]]

/-- The groups of interest of the worked example. -/
def c3Targets : List String := ["video-0.mp4", "video-1.mp4"]

/-- Counterexample for C3: in the worked example the twenty-loss bucket
of video-1.mp4 has zero contributing rows, and its cell is reported with
the plotted value 0, the number, rather than as an absent value. -/
theorem example_missing_cell_counterexample :
    (processRows demoCols c3Targets c3Rows).1 "video-1.mp4" Cond.twentyLoss
        = [] ∧
    (videoCell (processRows demoCols c3Targets c3Rows).1 "video-1.mp4").2
      = ((0 : ℚ), true) :=
  ⟨by decide, by decide⟩

/-- C3 as amended: on the worked example the pipeline yields the three
claimed means 0.10, 0.30 and 0.15, and for (video-1.mp4, twenty) it
emits the no-data note while plotting the placeholder value 0. -/
theorem example_aggregate_amended :
    generate_lpips_plot c3Targets (c3Header :: c3Rows)
      = Except.ok ⟨[("video-0.mp4", ((1/10, false), (3/10, false))),
                    ("video-1.mp4", ((3/20, false), (0, true)))], [], false⟩ := by
  have h : generate_lpips_plot c3Targets (c3Header :: c3Rows)
      = Except.ok ⟨[("video-0.mp4", ((mkRat 1 10, false), (mkRat 3 10, false))),
                    ("video-1.mp4", ((mkRat 3 20, false), (0, true)))],
                   [], false⟩ := by rfl
  rw [h]
  norm_num [Rat.mkRat_eq_divInt, Rat.divInt_eq_div]

/-- The result of pipelineAfterHeader always records the fallback flag it
was given. -/
theorem pipelineAfterHeader_fallback (cols : ColIdx) (fb : Bool)
    (targets : List String) (rows : List (List String)) (res : PlotResult)
    (h : pipelineAfterHeader cols fb targets rows = Except.ok res) :
    res.usedFallback = fb := by
  simp only [pipelineAfterHeader] at h
  split at h
  · exact Except.noConfusion h
  · injection h with h1
    rw [← h1]

/-- A header used by the counterexample for C4, containing none of the
three required names. -/
def c4Header : List String := ["only", "irrelevant", "columns"]

/-- A fourteen-column data row whose fallback positions 6, 8 and 13 hold
a metric, a loss and a target video name. -/
def c4Row : List String :=
  ["a", "b", "c", "d", "e", "f", "0.10", "g", "0.20", "h", "i", "j", "k",
   "video-0.mp4"]

/-- Counterexample for C4: with a header lacking every required name and
no caller-supplied fallback mapping anywhere, the pipeline does not fail
with any error: it completes successfully using the hardcoded fallback
positions, with the fallback flag set. -/
theorem schema_fallback_counterexample :
    generate_lpips_plot ["video-0.mp4"] [c4Header, c4Row]
      = Except.ok ⟨[("video-0.mp4", (((0 : ℚ), true), (1/10, false)))],
                   [], true⟩ := by
  have h : generate_lpips_plot ["video-0.mp4"] [c4Header, c4Row]
      = Except.ok ⟨[("video-0.mp4", (((0 : ℚ), true), (mkRat 1 10, false)))],
                   [], true⟩ := by rfl
  rw [h]
  norm_num [Rat.mkRat_eq_divInt, Rat.divInt_eq_div]

/-- C4 as amended: when the header lacks any required field name the run
is not aborted and no schema failure exists: the pipeline continues with
the hardcoded fallback positions 6, 8 and 13, and every successful
result records that the logged fallback was used. -/
theorem header_fallback_never_aborts (targets : List String)
    (header : List String) (rows : List (List String))
    (h : "lpips" ∉ header ∨ "avg_packet_loss" ∉ header ∨ "video" ∉ header) :
    generate_lpips_plot targets (header :: rows)
      = pipelineAfterHeader ⟨6, 8, 13⟩ true targets rows ∧
    (∀ res, generate_lpips_plot targets (header :: rows) = Except.ok res →
      res.usedFallback = true) := by
  have hgen : generate_lpips_plot targets (header :: rows)
      = pipelineAfterHeader (resolveCols header).1 (resolveCols header).2
          targets rows := rfl
  have hres := resolveCols_of_missing header h
  constructor
  · rw [hgen, hres]
  · intro res hok
    rw [hgen, hres] at hok
    exact pipelineAfterHeader_fallback ⟨6, 8, 13⟩ true targets rows res hok

/-- Witness for the amended C4: the concrete header lacking all three
names continues into normal processing with the fallback positions. -/
theorem header_fallback_never_aborts_witness :
    ("lpips" ∉ c4Header ∨ "avg_packet_loss" ∉ c4Header ∨ "video" ∉ c4Header) ∧
    generate_lpips_plot ["video-0.mp4"] (c4Header :: [c4Row])
      = pipelineAfterHeader ⟨6, 8, 13⟩ true ["video-0.mp4"] [c4Row] :=
  ⟨Or.inl (by decide),
   (header_fallback_never_aborts ["video-0.mp4"] c4Header [c4Row]
      (Or.inl (by decide))).1⟩

end TamburPlots
